import Mathlib

/-
Verification of applevision_rospkg: shallow embedding of
src/bin/applevision_visualizer.py and proofs about it.

The geometry is embedded over the real numbers (the Python code computes
with floats via math.atan, math.tan and numpy; the claims are about the
exact formulas). Messages and markers become Lean structures carrying the
fields the program reads or writes; the transform service call becomes an
explicit `Except` argument to each callback, so that a failing query is an
`Except.error` and a successful one an `Except.ok` carrying the response.
Publishing becomes the list of markers a callback emits, in publish order.
-/

namespace Applevision

/-- geometry_msgs/Point: a 3D point, as built by Point(x, y, z). -/
structure Point where
  x : ℝ
  y : ℝ
  z : ℝ

/-- geometry_msgs/Vector3: the translation part of a transform. -/
structure Vector3 where
  x : ℝ
  y : ℝ
  z : ℝ

/-- geometry_msgs/Transform, reduced to the field the program reads. -/
structure Transform where
  translation : Vector3

/-- geometry_msgs/TransformStamped, reduced to the field the program reads. -/
structure TransformStamped where
  transform : Transform

/-- Response of the Tf2Transform service: carries a TransformStamped. -/
structure Tf2TransformResponse where
  transform : TransformStamped

/-- std_msgs/Header, reduced to the fields the program sets:
seq (uint32, embedded as ℕ) and frame_id. A fresh message has seq = 0 and
an empty frame_id (the ROS message defaults). -/
structure MsgHeader where
  seq : ℕ
  frame_id : String

/-- Default std_msgs/Header of a freshly constructed message. -/
def MsgHeader.default : MsgHeader := { seq := 0, frame_id := "" }

/-- visualization_msgs/Marker, reduced to the fields the program writes:
header, ns, id, type, action, scale.x, pose.orientation.w, pose.position.z,
color (r, g, b, a) and the point list. -/
structure Marker where
  header : MsgHeader
  ns : String
  id : ℕ
  mtype : ℕ
  action : ℕ
  scaleX : ℝ
  poseOrientationW : ℝ
  posePositionZ : ℝ
  colorR : ℝ
  colorG : ℝ
  colorB : ℝ
  colorA : ℝ
  points : List Point

/-- A freshly constructed Marker(): every numeric field zero, empty strings
and point list (the ROS message defaults). -/
def Marker.default : Marker :=
  { header := MsgHeader.default, ns := "", id := 0, mtype := 0, action := 0,
    scaleX := 0, poseOrientationW := 0, posePositionZ := 0,
    colorR := 0, colorG := 0, colorB := 0, colorA := 0, points := [] }

/-- Marker.LINE_LIST message constant. -/
def Marker.LINE_LIST : ℕ := 5

/-- Marker.ADD message constant. -/
def Marker.ADD : ℕ := 0

/-- applevision_rospkg/RegionOfInterestWithCovarianceStamped, reduced to the
fields the program reads: the pixel rectangle x, y, w, h. -/
structure RegionOfInterestWithCovarianceStamped where
  x : ℝ
  y : ℝ
  w : ℝ
  h : ℝ

/-- applevision_rospkg/PointWithCovarianceStamped: the estimate message.
KalmanVizHandler.callback receives it but never reads any field. -/
structure PointWithCovarianceStamped where
  point : Point

/-- class HeaderCalc: frame_id plus the mutable _seq counter. -/
structure HeaderCalc where
  frame_id : String
  _seq : ℕ

/-- HeaderCalc.__init__(frame_id): counter starts at 0. -/
def HeaderCalc.init (frame_id : String) : HeaderCalc :=
  { frame_id := frame_id, _seq := 0 }

/-- HeaderCalc.get_header: returns a header carrying the current _seq, then
updates _seq (wrap to 0 at the uint32 maximum, else increment). The pair is
(returned header, state after the call). -/
def HeaderCalc.get_header (h : HeaderCalc) : MsgHeader × HeaderCalc :=
  let fake_header : MsgHeader := { seq := h._seq, frame_id := h.frame_id }
  if h._seq ≥ 4294967295 then
    (fake_header, { h with _seq := 0 })
  else
    (fake_header, { h with _seq := h._seq + 1 })

/-- State of HeaderCalc after n calls to get_header, from a fresh instance. -/
def HeaderCalc.afterCalls (frame_id : String) (n : ℕ) : HeaderCalc :=
  (fun h => (HeaderCalc.get_header h).2)^[n] (HeaderCalc.init frame_id)

/-- CamVizHandler.CAMERA_RES = (640, 360). -/
def CAMERA_RES : ℝ × ℝ := (640, 360)

noncomputable section

/-- CamVizHandler.CAMERA_SENSOR = (5449*(640/672)*1e-6, 3072*(360/380)*1e-6). -/
def CAMERA_SENSOR : ℝ × ℝ :=
  (5449 * ((640 : ℝ) / 672) * (1 / 1000000), 3072 * ((360 : ℝ) / 380) * (1 / 1000000))

/-- CamVizHandler.CAMERA_FOCAL = 11e-3. -/
def CAMERA_FOCAL : ℝ := 11 / 1000

/-- CAM_FOV_ACROSS = 2*atan(CAMERA_SENSOR[0] / (2*CAMERA_FOCAL)). -/
def CAM_FOV_ACROSS : ℝ := 2 * Real.arctan (CAMERA_SENSOR.1 / (2 * CAMERA_FOCAL))

/-- CAM_FOV_UPDOWN = 2*atan(CAMERA_SENSOR[1] / (2*CAMERA_FOCAL)). -/
def CAM_FOV_UPDOWN : ℝ := 2 * Real.arctan (CAMERA_SENSOR.2 / (2 * CAMERA_FOCAL))

/-- X_AT_Z_EXTRAP = z_extrap * tan(CAM_FOV_ACROSS / 2). -/
def X_AT_Z_EXTRAP (z_extrap : ℝ) : ℝ := z_extrap * Real.tan (CAM_FOV_ACROSS / 2)

/-- Y_AT_Z_EXTRAP = z_extrap * tan(CAM_FOV_UPDOWN / 2). -/
def Y_AT_Z_EXTRAP (z_extrap : ℝ) : ℝ := z_extrap * Real.tan (CAM_FOV_UPDOWN / 2)

/-- top_left = (cam_msg.x - CAMERA_RES[0]/2, cam_msg.y - CAMERA_RES[1]/2). -/
def top_left (cam_msg : RegionOfInterestWithCovarianceStamped) : ℝ × ℝ :=
  (cam_msg.x - CAMERA_RES.1 / 2, cam_msg.y - CAMERA_RES.2 / 2)

/-- bottom_right = top_left + (cam_msg.w, cam_msg.h), componentwise. -/
def bottom_right (cam_msg : RegionOfInterestWithCovarianceStamped) : ℝ × ℝ :=
  ((top_left cam_msg).1 + cam_msg.w, (top_left cam_msg).2 + cam_msg.h)

/-- top_left_m = top_left / CAMERA_RES * (X_AT_Z_EXTRAP, Y_AT_Z_EXTRAP) * 2,
componentwise numpy broadcasting. -/
def top_left_m (z_extrap : ℝ) (cam_msg : RegionOfInterestWithCovarianceStamped) : ℝ × ℝ :=
  ((top_left cam_msg).1 / CAMERA_RES.1 * X_AT_Z_EXTRAP z_extrap * 2,
   (top_left cam_msg).2 / CAMERA_RES.2 * Y_AT_Z_EXTRAP z_extrap * 2)

/-- bottom_right_m = bottom_right / CAMERA_RES * (X, Y) * 2, componentwise. -/
def bottom_right_m (z_extrap : ℝ) (cam_msg : RegionOfInterestWithCovarianceStamped) : ℝ × ℝ :=
  ((bottom_right cam_msg).1 / CAMERA_RES.1 * X_AT_Z_EXTRAP z_extrap * 2,
   (bottom_right cam_msg).2 / CAMERA_RES.2 * Y_AT_Z_EXTRAP z_extrap * 2)

/-- CamVizHandler.make_cam_fov_marker(z_extrap, cam_msg): builds the FOV cone
marker (ns applevision_cam_fov, frame fake_grabber) and the bounding box
marker (ns applevision_cam_box, frame fake_grabber_cam, pose.position.z set
to z_extrap), and returns [box_mark, cam_mark]. -/
def make_cam_fov_marker (z_extrap : ℝ)
    (cam_msg : RegionOfInterestWithCovarianceStamped) : List Marker :=
  let X := X_AT_Z_EXTRAP z_extrap
  let Y := Y_AT_Z_EXTRAP z_extrap
  let cam_mark : Marker :=
    { Marker.default with
      header := { Marker.default.header with frame_id := "fake_grabber" },
      ns := "applevision_cam_fov", id := 0,
      mtype := Marker.LINE_LIST, action := Marker.ADD,
      scaleX := 0.01, poseOrientationW := 1,
      colorR := 1, colorA := 0.5,
      points := [
        -- draw cone
        ⟨0, 0, 0⟩, ⟨X, Y, z_extrap⟩,
        ⟨0, 0, 0⟩, ⟨-X, Y, z_extrap⟩,
        ⟨0, 0, 0⟩, ⟨-X, -Y, z_extrap⟩,
        ⟨0, 0, 0⟩, ⟨X, -Y, z_extrap⟩,
        -- draw box at end of cone
        ⟨X, Y, z_extrap⟩, ⟨-X, Y, z_extrap⟩,
        ⟨-X, Y, z_extrap⟩, ⟨-X, -Y, z_extrap⟩,
        ⟨-X, -Y, z_extrap⟩, ⟨X, -Y, z_extrap⟩,
        ⟨X, -Y, z_extrap⟩, ⟨X, Y, z_extrap⟩] }
  let tl := top_left_m z_extrap cam_msg
  let br := bottom_right_m z_extrap cam_msg
  let box_mark : Marker :=
    { Marker.default with
      header := { Marker.default.header with frame_id := "fake_grabber_cam" },
      ns := "applevision_cam_box", id := 0,
      mtype := Marker.LINE_LIST, action := Marker.ADD,
      scaleX := 0.005, poseOrientationW := 1,
      posePositionZ := z_extrap,
      colorG := 1, colorA := 0.5,
      points := [
        ⟨tl.1, tl.2, 0⟩, ⟨br.1, tl.2, 0⟩,
        ⟨br.1, tl.2, 0⟩, ⟨br.1, br.2, 0⟩,
        ⟨br.1, br.2, 0⟩, ⟨tl.1, br.2, 0⟩,
        ⟨tl.1, br.2, 0⟩, ⟨tl.1, tl.2, 0⟩] }
  [box_mark, cam_mark]

/-- CamVizHandler.callback(cam): the transform query result is passed in as
an `Except`; the callback has no try/except, so a failing query propagates
(`Except.error`) and nothing is published, while a successful query leads to
both markers of make_cam_fov_marker being published in order. -/
def CamVizHandler.callback {ε : Type}
    (tf_result : Except ε Tf2TransformResponse)
    (cam : RegionOfInterestWithCovarianceStamped) : Except ε (List Marker) := do
  let dist_to_apple ← tf_result
  pure (make_cam_fov_marker dist_to_apple.transform.transform.translation.z cam)

/-- CamVizHandler state: __init__ builds a HeaderCalc for frame fake_grabber.
The service proxy, publisher and random generator carry no modelled state. -/
structure CamVizHandler where
  _header : HeaderCalc

/-- CamVizHandler.__init__. -/
def CamVizHandler.init : CamVizHandler :=
  { _header := HeaderCalc.init "fake_grabber" }

/-- CamVizHandler.callback with the handler state threaded through: the body
of callback never touches self._header, so the state after the call is the
state before it. -/
def CamVizHandler.callbackS {ε : Type} (h : CamVizHandler)
    (tf_result : Except ε Tf2TransformResponse)
    (cam : RegionOfInterestWithCovarianceStamped) :
    Except ε (List Marker) × CamVizHandler :=
  (CamVizHandler.callback tf_result cam, h)

/-- KalmanVizHandler.callback(res): the transform query sits inside
try/except Exception, so any failure returns silently with nothing
published; on success one arrow marker is published, whose points are
Point(0,0,0) and the translation vector, after computing the (unused)
Euclidean magnitude of the translation. -/
def KalmanVizHandler.callback {ε : Type}
    (tf_result : Except ε Tf2TransformResponse)
    (res : PointWithCovarianceStamped) : List Marker :=
  match tf_result with
  | Except.error _ => []
  | Except.ok dist_to_apple =>
    let trans : TransformStamped := dist_to_apple.transform
    let mag : ℝ := Real.sqrt (trans.transform.translation.x ^ 2 +
      trans.transform.translation.y ^ 2 + trans.transform.translation.z ^ 2)
    let arrow_mark : Marker :=
      { Marker.default with
        header := { Marker.default.header with frame_id := "fake_grabber" },
        ns := "applevision_arrow", id := 0,
        mtype := Marker.LINE_LIST, action := Marker.ADD,
        scaleX := 0.005, poseOrientationW := 1,
        colorG := 1, colorA := 0.5,
        points := [⟨0, 0, 0⟩,
          ⟨trans.transform.translation.x, trans.transform.translation.y,
           trans.transform.translation.z⟩] }
    [arrow_mark]

/-- The (namespace, id) identities published on visualization_marker by one
successful CamVizHandler.callback followed by one successful
KalmanVizHandler.callback, in publish order. -/
def emittedIdentities (t : Tf2TransformResponse)
    (cam : RegionOfInterestWithCovarianceStamped)
    (res : PointWithCovarianceStamped) : List (String × ℕ) :=
  (make_cam_fov_marker t.transform.transform.translation.z cam ++
    KalmanVizHandler.callback (ε := Unit) (Except.ok t) res).map
    (fun m => (m.ns, m.id))

end

/-- Concrete transform-service response used by concrete-input theorems. -/
def t0 : Tf2TransformResponse := ⟨⟨⟨⟨1, 2, 3⟩⟩⟩⟩

/-- Concrete detection message used by concrete-input theorems. -/
def cam0 : RegionOfInterestWithCovarianceStamped := ⟨0, 0, 640, 360⟩

/-- Concrete estimate message used by concrete-input theorems. -/
def res0 : PointWithCovarianceStamped := ⟨⟨0, 0, 0⟩⟩

/-- Unfolding of HeaderCalc.afterCalls at a successor. -/
theorem HeaderCalc.afterCalls_succ (f : String) (n : ℕ) :
    HeaderCalc.afterCalls f (n + 1) =
      (HeaderCalc.get_header (HeaderCalc.afterCalls f n)).2 := by
  simp only [HeaderCalc.afterCalls, Function.iterate_succ_apply']

/-- The counter after n calls to get_header is n modulo 2^32. -/
theorem HeaderCalc.seq_afterCalls (f : String) (n : ℕ) :
    (HeaderCalc.afterCalls f n)._seq = n % 4294967296 := by
  induction n with
  | zero => rfl
  | succ n ih =>
    rw [HeaderCalc.afterCalls_succ]
    simp only [HeaderCalc.get_header]
    split_ifs with hc
    · simp only []
      omega
    · simp only []
      omega

/-- C6: the sequence counter starts at 0 at construction; each call to
get_header increments it by 1 unless it has reached 4294967295, in which
case it wraps to 0; consequently, starting from 0, after exactly 4294967296
calls the counter equals 0 again, and the counter never exceeds
4294967295. -/
theorem claim_C6_seq_counter_wraps (f : String) :
    (HeaderCalc.init f)._seq = 0 ∧
    (∀ h : HeaderCalc, ((HeaderCalc.get_header h).2)._seq =
      if h._seq ≥ 4294967295 then 0 else h._seq + 1) ∧
    (HeaderCalc.afterCalls f 4294967296)._seq = 0 ∧
    (∀ n : ℕ, (HeaderCalc.afterCalls f n)._seq ≤ 4294967295) := by
  refine ⟨rfl, ?_, ?_, ?_⟩
  · intro h
    simp only [HeaderCalc.get_header]
    split_ifs <;> rfl
  · rw [HeaderCalc.seq_afterCalls, Nat.mod_self]
  · intro n
    have := HeaderCalc.seq_afterCalls f n
    omega

/-- C9: the header returned by the N-th call to get_header (N = n + 1, so
N ≥ 1) carries seq equal to the counter value before that call, namely
(N - 1) mod 4294967296 = n mod 4294967296; the increment or wrap happens
only after the returned header has its seq fixed, i.e. the returned header
always carries the pre-call counter value. -/
theorem claim_C9_header_carries_precall_seq (f : String) :
    (∀ h : HeaderCalc, ((HeaderCalc.get_header h).1).seq = h._seq) ∧
    (∀ n : ℕ, ((HeaderCalc.get_header (HeaderCalc.afterCalls f n)).1).seq =
      n % 4294967296) := by
  constructor
  · intro h
    simp only [HeaderCalc.get_header]
    split_ifs <;> rfl
  · intro n
    have hs := HeaderCalc.seq_afterCalls f n
    simp only [HeaderCalc.get_header]
    split_ifs <;> simpa using hs

/-- C4: for every estimate message, if the transform query fails with any
error, KalmanVizHandler.callback returns silently with zero publish calls
and no propagation; if the query succeeds, it publishes exactly one marker
holding the single line segment from (0,0,0) to the translation vector, in
frame fake_grabber. The published marker equals a literal that does not
mention the computed Euclidean magnitude, so the output does not depend on
it. -/
theorem claim_C4_arrow_error_swallowed {ε : Type} :
    (∀ (e : ε) (res : PointWithCovarianceStamped),
      KalmanVizHandler.callback (Except.error e) res = []) ∧
    (∀ (t : Tf2TransformResponse) (res : PointWithCovarianceStamped),
      KalmanVizHandler.callback (ε := ε) (Except.ok t) res =
        [{ Marker.default with
           header := { seq := 0, frame_id := "fake_grabber" },
           ns := "applevision_arrow", id := 0,
           mtype := Marker.LINE_LIST, action := Marker.ADD,
           scaleX := 0.005, poseOrientationW := 1,
           colorG := 1, colorA := 0.5,
           points := [⟨0, 0, 0⟩,
             ⟨t.transform.transform.translation.x,
              t.transform.transform.translation.y,
              t.transform.transform.translation.z⟩] }]) :=
  ⟨fun _ _ => rfl, fun _ _ => rfl⟩

/-- C5: for every detection message, a successful transform query makes
CamVizHandler.callback publish exactly two markers, while a failing query
propagates the error out of the callback unchanged, with no publish and no
local recovery. -/
theorem claim_C5_cam_two_publishes_or_propagate {ε : Type} :
    (∀ (t : Tf2TransformResponse) (cam : RegionOfInterestWithCovarianceStamped),
      ∃ ms : List Marker,
        CamVizHandler.callback (ε := ε) (Except.ok t) cam = Except.ok ms ∧
        ms.length = 2) ∧
    (∀ (e : ε) (cam : RegionOfInterestWithCovarianceStamped),
      CamVizHandler.callback (Except.error e) cam = Except.error e) :=
  ⟨fun t cam =>
    ⟨make_cam_fov_marker t.transform.transform.translation.z cam, rfl, rfl⟩,
   fun _ _ => rfl⟩

/-- C10: neither callback invokes the header generator: CamVizHandler is
constructed with the HeaderCalc counter at 0, the state-threaded callback
leaves the handler (hence the counter) unchanged, the counter is still 0
after any sequence of callbacks, and every published marker of either
handler carries the header seq of a freshly constructed message
(Marker.default, seq = 0) rather than a generator-produced value. -/
theorem claim_C10_header_generator_unused {ε : Type} :
    CamVizHandler.init._header._seq = 0 ∧
    (∀ (h : CamVizHandler) (tf : Except ε Tf2TransformResponse)
        (cam : RegionOfInterestWithCovarianceStamped),
      (h.callbackS tf cam).2 = h) ∧
    (∀ inputs : List (Except ε Tf2TransformResponse ×
        RegionOfInterestWithCovarianceStamped),
      (inputs.foldl (fun h i => (h.callbackS i.1 i.2).2)
        CamVizHandler.init)._header._seq = 0) ∧
    (∀ (t : Tf2TransformResponse) (cam : RegionOfInterestWithCovarianceStamped),
      Except.map (fun ms : List Marker => ms.map fun m => m.header.seq)
        (CamVizHandler.callback (ε := ε) (Except.ok t) cam) =
        Except.ok [0, 0]) ∧
    (∀ (t : Tf2TransformResponse) (res : PointWithCovarianceStamped),
      (KalmanVizHandler.callback (ε := ε) (Except.ok t) res).map
        (fun m => m.header.seq) = [0]) ∧
    Marker.default.header.seq = 0 := by
  refine ⟨rfl, fun _ _ _ => rfl, ?_, fun _ _ => rfl, fun _ _ => rfl, rfl⟩
  intro inputs
  induction inputs with
  | nil => rfl
  | cons a l ih => simpa [CamVizHandler.callbackS] using ih

/-- C1: for every detection (x, y, w, h) and query distance D, the
bounding-box marker (the first marker returned) is the 4-edge rectangle
outline through the corners obtained from top_left = (x - 640/2, y - 360/2)
and bottom_right = top_left + (w, h), each converted by
point_m = point_px / (640, 360) * (X, Y) * 2 with X = D*tan(hFOV/2) and
Y = D*tan(vFOV/2); its points all have local z = 0, its frame
fake_grabber_cam is distinct from the cone frame fake_grabber, and its pose
carries a local z-offset equal to D. -/
theorem claim_C1_box_marker (D : ℝ)
    (cam : RegionOfInterestWithCovarianceStamped) :
    ∃ X Y tlx tly brx bry : ℝ,
      X = D * Real.tan (2 * Real.arctan
        (5449 * ((640 : ℝ) / 672) * (1 / 1000000) / (2 * (11 / 1000))) / 2) ∧
      Y = D * Real.tan (2 * Real.arctan
        (3072 * ((360 : ℝ) / 380) * (1 / 1000000) / (2 * (11 / 1000))) / 2) ∧
      tlx = (cam.x - 640 / 2) / 640 * X * 2 ∧
      tly = (cam.y - 360 / 2) / 360 * Y * 2 ∧
      brx = (cam.x - 640 / 2 + cam.w) / 640 * X * 2 ∧
      bry = (cam.y - 360 / 2 + cam.h) / 360 * Y * 2 ∧
      (make_cam_fov_marker D cam).head? = some
        { Marker.default with
          header := { seq := 0, frame_id := "fake_grabber_cam" },
          ns := "applevision_cam_box", id := 0,
          mtype := Marker.LINE_LIST, action := Marker.ADD,
          scaleX := 0.005, poseOrientationW := 1,
          posePositionZ := D,
          colorG := 1, colorA := 0.5,
          points := [
            ⟨tlx, tly, 0⟩, ⟨brx, tly, 0⟩,
            ⟨brx, tly, 0⟩, ⟨brx, bry, 0⟩,
            ⟨brx, bry, 0⟩, ⟨tlx, bry, 0⟩,
            ⟨tlx, bry, 0⟩, ⟨tlx, tly, 0⟩] } ∧
      "fake_grabber_cam" ≠ "fake_grabber" := by
  refine ⟨X_AT_Z_EXTRAP D, Y_AT_Z_EXTRAP D,
    (top_left_m D cam).1, (top_left_m D cam).2,
    (bottom_right_m D cam).1, (bottom_right_m D cam).2,
    ?_, ?_, rfl, rfl, rfl, rfl, rfl, by decide⟩
  · simp [X_AT_Z_EXTRAP, CAM_FOV_ACROSS, CAMERA_SENSOR, CAMERA_FOCAL]
  · simp [Y_AT_Z_EXTRAP, CAM_FOV_UPDOWN, CAMERA_SENSOR, CAMERA_FOCAL]

/-- C2: for every query distance D (and any detection message), the FOV cone
marker (the second marker returned) consists of exactly 8 line segments in
frame fake_grabber: 4 edges from the apex (0,0,0) to the corners
(±X, ±Y, D) plus the 4 edges of the rectangle connecting those corners,
with X = D*tan(hFOV/2), Y = D*tan(vFOV/2), hFOV = 2*atan(S.x/(2F)),
vFOV = 2*atan(S.y/(2F)), S = (5449*(640/672)e-6, 3072*(360/380)e-6) and
F = 11e-3. -/
theorem claim_C2_cone_marker (D : ℝ)
    (cam : RegionOfInterestWithCovarianceStamped) :
    ∃ X Y : ℝ,
      X = D * Real.tan (2 * Real.arctan
        (5449 * ((640 : ℝ) / 672) * (1 / 1000000) / (2 * (11 / 1000))) / 2) ∧
      Y = D * Real.tan (2 * Real.arctan
        (3072 * ((360 : ℝ) / 380) * (1 / 1000000) / (2 * (11 / 1000))) / 2) ∧
      (make_cam_fov_marker D cam).get? 1 = some
        { Marker.default with
          header := { seq := 0, frame_id := "fake_grabber" },
          ns := "applevision_cam_fov", id := 0,
          mtype := Marker.LINE_LIST, action := Marker.ADD,
          scaleX := 0.01, poseOrientationW := 1,
          colorR := 1, colorA := 0.5,
          points := [
            ⟨0, 0, 0⟩, ⟨X, Y, D⟩,
            ⟨0, 0, 0⟩, ⟨-X, Y, D⟩,
            ⟨0, 0, 0⟩, ⟨-X, -Y, D⟩,
            ⟨0, 0, 0⟩, ⟨X, -Y, D⟩,
            ⟨X, Y, D⟩, ⟨-X, Y, D⟩,
            ⟨-X, Y, D⟩, ⟨-X, -Y, D⟩,
            ⟨-X, -Y, D⟩, ⟨X, -Y, D⟩,
            ⟨X, -Y, D⟩, ⟨X, Y, D⟩] } ∧
      (make_cam_fov_marker D cam).length = 2 := by
  refine ⟨X_AT_Z_EXTRAP D, Y_AT_Z_EXTRAP D, ?_, ?_, rfl, rfl⟩
  · simp [X_AT_Z_EXTRAP, CAM_FOV_ACROSS, CAMERA_SENSOR, CAMERA_FOCAL]
  · simp [Y_AT_Z_EXTRAP, CAM_FOV_UPDOWN, CAMERA_SENSOR, CAMERA_FOCAL]

/-- C3: for every query distance D, the full-frame detection rectangle
(x = 0, y = 0, w = 640, h = 360) projects to bounding-box corners that
coincide exactly with the far-plane corners of the cone: top_left maps to
(-X, -Y) and bottom_right to (X, Y), and the matching corner points
(±X, ±Y, D) occur among the cone marker points at depth D. -/
theorem claim_C3_fullframe_matches_cone (D : ℝ) :
    top_left_m D ⟨0, 0, 640, 360⟩ =
      (-(X_AT_Z_EXTRAP D), -(Y_AT_Z_EXTRAP D)) ∧
    bottom_right_m D ⟨0, 0, 640, 360⟩ =
      (X_AT_Z_EXTRAP D, Y_AT_Z_EXTRAP D) ∧
    ∃ cm : Marker,
      (make_cam_fov_marker D ⟨0, 0, 640, 360⟩).get? 1 = some cm ∧
      (⟨-(X_AT_Z_EXTRAP D), -(Y_AT_Z_EXTRAP D), D⟩ : Point) ∈ cm.points ∧
      (⟨X_AT_Z_EXTRAP D, Y_AT_Z_EXTRAP D, D⟩ : Point) ∈ cm.points := by
  refine ⟨?_, ?_, ?_⟩
  · have hv : top_left_m D ⟨0, 0, 640, 360⟩ =
        (((0 : ℝ) - 640 / 2) / 640 * X_AT_Z_EXTRAP D * 2,
         ((0 : ℝ) - 360 / 2) / 360 * Y_AT_Z_EXTRAP D * 2) := rfl
    rw [hv, Prod.mk.injEq]
    constructor <;> ring
  · have hv : bottom_right_m D ⟨0, 0, 640, 360⟩ =
        (((0 : ℝ) - 640 / 2 + 640) / 640 * X_AT_Z_EXTRAP D * 2,
         ((0 : ℝ) - 360 / 2 + 360) / 360 * Y_AT_Z_EXTRAP D * 2) := rfl
    rw [hv, Prod.mk.injEq]
    constructor <;> ring
  · refine ⟨_, rfl, ?_, ?_⟩
    · simp [make_cam_fov_marker]
    · simp [make_cam_fov_marker]

/-- C8: at query distance D = 0 the marker computation is total, takes no
error branch, and produces degenerate zero-area drawables: for every
detection message both markers are still emitted, and every cone point and
every bounding-box point collapses to (0,0,0), so each emitted segment has
zero extent. -/
theorem claim_C8_zero_distance_degenerate
    (cam : RegionOfInterestWithCovarianceStamped) :
    make_cam_fov_marker 0 cam =
      [{ Marker.default with
         header := { seq := 0, frame_id := "fake_grabber_cam" },
         ns := "applevision_cam_box", id := 0,
         mtype := Marker.LINE_LIST, action := Marker.ADD,
         scaleX := 0.005, poseOrientationW := 1,
         posePositionZ := 0,
         colorG := 1, colorA := 0.5,
         points := [⟨0, 0, 0⟩, ⟨0, 0, 0⟩, ⟨0, 0, 0⟩, ⟨0, 0, 0⟩,
           ⟨0, 0, 0⟩, ⟨0, 0, 0⟩, ⟨0, 0, 0⟩, ⟨0, 0, 0⟩] },
       { Marker.default with
         header := { seq := 0, frame_id := "fake_grabber" },
         ns := "applevision_cam_fov", id := 0,
         mtype := Marker.LINE_LIST, action := Marker.ADD,
         scaleX := 0.01, poseOrientationW := 1,
         colorR := 1, colorA := 0.5,
         points := [⟨0, 0, 0⟩, ⟨0, 0, 0⟩, ⟨0, 0, 0⟩, ⟨0, 0, 0⟩,
           ⟨0, 0, 0⟩, ⟨0, 0, 0⟩, ⟨0, 0, 0⟩, ⟨0, 0, 0⟩,
           ⟨0, 0, 0⟩, ⟨0, 0, 0⟩, ⟨0, 0, 0⟩, ⟨0, 0, 0⟩,
           ⟨0, 0, 0⟩, ⟨0, 0, 0⟩, ⟨0, 0, 0⟩, ⟨0, 0, 0⟩] }] := by
  simp [make_cam_fov_marker, top_left_m, bottom_right_m, top_left,
    bottom_right, X_AT_Z_EXTRAP, Y_AT_Z_EXTRAP, CAMERA_RES,
    Marker.default, MsgHeader.default]

/-- C7 counterexample: running one successful detection callback and one
successful estimate callback at concrete inputs emits exactly 3 distinct
(namespace, id) identities, not 4 as the claim states. -/
theorem claim_C7_counterexample :
    (emittedIdentities t0 cam0 res0).dedup.length = 3 ∧ (3 : ℕ) ≠ 4 := by
  have h : emittedIdentities t0 cam0 res0 =
      [("applevision_cam_box", 0), ("applevision_cam_fov", 0),
       ("applevision_arrow", 0)] := rfl
  rw [h]
  exact ⟨by decide, by decide⟩

/-- C7 amended: across the two handlers, three distinct (namespace, id)
identities are emitted on the drawing topic, with the camera box, camera
cone and estimate arrow each using id = 0 in its own distinct namespace. -/
theorem claim_C7_amended_three_identities (t : Tf2TransformResponse)
    (cam : RegionOfInterestWithCovarianceStamped)
    (res : PointWithCovarianceStamped) :
    emittedIdentities t cam res =
      [("applevision_cam_box", 0), ("applevision_cam_fov", 0),
       ("applevision_arrow", 0)] ∧
    (emittedIdentities t cam res).dedup.length = 3 := by
  have h : emittedIdentities t cam res =
      [("applevision_cam_box", 0), ("applevision_cam_fov", 0),
       ("applevision_arrow", 0)] := rfl
  exact ⟨h, by rw [h]; decide⟩

end Applevision
